import Mathlib

/-!
Verification of the solaris preprocessing image pipeline (src/solaris/preproc/image.py)
against its natural-language specification.

The Python module is shallowly embedded: numpy float values become `Val`
(a rational number or NaN), numpy arrays become `NDArray` (an explicit
shape together with a row-major flattened value list), the GDAL raster-IO
collaborator becomes explicit record types (`GdalDataset` for datasets read
from disk, `GdalOutput` for datasets written by SaveImage), and each stage's
`transform`/`process` method becomes a Lean function of its configuration
and input.
-/

/-- A numpy floating-point value: either an ordinary (exact) number or NaN. -/
inductive Val
  | num (q : ℚ)
  | nan
deriving DecidableEq

/-- A numpy ndarray: explicit shape together with the row-major flattened
list of values, plus the dtype name. -/
structure NDArray where
  shape : List Nat
  dtype : String
  vals : List Val
deriving DecidableEq

/-- The 6-entry affine geotransform tuple (origin-x, pixel-width,
row-rotation, origin-y, column-rotation, pixel-height), as returned by
GDAL's GetGeoTransform. -/
structure GeoTransform where
  gt0 : ℚ
  gt1 : ℚ
  gt2 : ℚ
  gt3 : ℚ
  gt4 : ℚ
  gt5 : ℚ
deriving DecidableEq

/-- The metadata dictionary attached to an Image by LoadImageFromDisk, with
its five recognized keys plus band_meta. -/
structure Metadata where
  geotransform : GeoTransform
  projection_ref : String
  gcps : List String
  gcp_projection : String
  meta : List (String × String)
  band_meta : List (List (String × String))
deriving DecidableEq

/-- The Image data entity: a data array, a display name and a metadata
mapping (class Image in image.py). -/
structure Image where
  data : NDArray
  name : String
  metadata : Metadata
deriving DecidableEq

/-- The elements of band `b` of a (band, row, column) array: the slice of
the flattened values corresponding to data\x7bb, :, :\x7d, i.e. one full
row-by-column plane. -/
def bandVals (a : NDArray) (b : Nat) : List Val :=
  let sliceLen := a.shape.getD 1 0 * a.shape.getD 2 0
  (a.vals.drop (b * sliceLen)).take sliceLen

/-- np.nan_to_num with an explicit replacement for NaN: an ordinary number
is unchanged, NaN becomes the replacement. -/
def nan_to_num (repl : ℚ) (v : Val) : ℚ :=
  match v with
  | .num q => q
  | .nan => repl

/-- The non-NaN values of a list, in order (what the np.nan-ignoring
reductions operate on). -/
def nonNan (l : List Val) : List ℚ :=
  l.filterMap (fun v =>
    match v with
    | .num q => some q
    | .nan => none)

/-- Insert a rational into a sorted list, keeping it sorted. -/
def insertSorted (q : ℚ) : List ℚ → List ℚ
  | [] => [q]
  | x :: xs => if q ≤ x then q :: x :: xs else x :: insertSorted q xs

/-- Insertion sort on rationals (ascending), used to model the sorting
step inside np.nanmedian. -/
def sortRat : List ℚ → List ℚ
  | [] => []
  | x :: xs => insertSorted x (sortRat xs)

/-- np.nanmin over one band: minimum of the non-NaN values (NaN if there
are none). -/
def ImageStats.nanmin (l : List Val) : Val :=
  match nonNan l with
  | [] => .nan
  | q :: qs => .num (qs.foldl min q)

/-- np.nanmax over one band: maximum of the non-NaN values (NaN if there
are none). -/
def ImageStats.nanmax (l : List Val) : Val :=
  match nonNan l with
  | [] => .nan
  | q :: qs => .num (qs.foldl max q)

/-- np.nanmean over one band: arithmetic mean of the non-NaN values (NaN
if there are none). -/
def ImageStats.nanmean (l : List Val) : Val :=
  match nonNan l with
  | [] => .nan
  | q :: qs => .num ((q :: qs).sum / ((q :: qs).length : ℚ))

/-- np.nanmedian over one band: sort the non-NaN values; for an odd count
take the middle element, for an even count average the two middle
elements (NaN if there are none). -/
def ImageStats.nanmedian (l : List Val) : Val :=
  let s := sortRat (nonNan l)
  let n := s.length
  if n = 0 then .nan
  else if n % 2 = 1 then .num (s.getD (n / 2) 0)
  else .num ((s.getD (n / 2 - 1) 0 + s.getD (n / 2) 0) / 2)

/-- The element test of the pos count:
np.nan_to_num(data, nan=-1.) > 0 (so NaN, replaced by -1, never passes). -/
def ImageStats.posTest (v : Val) : Bool :=
  decide (0 < nan_to_num (-1) v)

/-- The element test of the zero count: data == 0, with the IEEE rule that
a comparison against NaN is false. -/
def ImageStats.zeroTest (v : Val) : Bool :=
  match v with
  | .num q => decide (q = 0)
  | .nan => false

/-- The element test of the neg count:
np.nan_to_num(data, nan=1.) < 0 (so NaN, replaced by +1, never passes). -/
def ImageStats.negTest (v : Val) : Bool :=
  decide (nan_to_num 1 v < 0)

/-- The element test of the nan count: np.isnan. -/
def ImageStats.nanTest (v : Val) : Bool :=
  match v with
  | .num _ => false
  | .nan => true

/-- One row of the per-band statistics table assembled by
ImageStats.transform (the std column, a real-valued square root, is the
one column not carried over into this rational-valued embedding). -/
structure BandStats where
  min : Val
  max : Val
  mean : Val
  median : Val
  pos : Nat
  zero : Nat
  neg : Nat
  nan : Nat
deriving DecidableEq

/-- The statistics-table row of one band of an image. -/
def ImageStats.bandStats (l : List Val) : BandStats :=
  { min := ImageStats.nanmin l
    max := ImageStats.nanmax l
    mean := ImageStats.nanmean l
    median := ImageStats.nanmedian l
    pos := l.countP ImageStats.posTest
    zero := l.countP ImageStats.zeroTest
    neg := l.countP ImageStats.negTest
    nan := l.countP ImageStats.nanTest }

/-- The per-band statistics table computed by ImageStats.transform: the
reductions over axes (1,2) produce one row per band. -/
def ImageStats.props (a : NDArray) : List BandStats :=
  (List.range (a.shape.getD 0 0)).map (fun b => ImageStats.bandStats (bandVals a b))

/-- An all-empty metadata record, standing for the empty-field metadata of
images built directly in memory for the concrete test cases. -/
def Metadata.empty : Metadata :=
  { geotransform := ⟨0, 0, 0, 0, 0, 0⟩
    projection_ref := ""
    gcps := []
    gcp_projection := ""
    meta := []
    band_meta := [] }

/-- The concrete single-band 2x2 image of the stats test case, with values
marshalled row-major: data = ⟦⟦⟦1, NaN⟧, ⟦0, -2⟧⟧⟧. -/
def c1img : Image :=
  { data := { shape := [1, 2, 2]
              dtype := "float64"
              vals := [.num 1, .nan, .num 0, .num (-2)] }
    name := "image"
    metadata := Metadata.empty }

lemma counts_partition (l : List Val) :
    l.countP ImageStats.posTest + l.countP ImageStats.zeroTest +
      l.countP ImageStats.negTest + l.countP ImageStats.nanTest = l.length := by
  induction l with
  | nil => rfl
  | cons v t ih =>
    simp only [List.countP_cons, List.length_cons]
    cases v with
    | nan =>
      norm_num [ImageStats.posTest, ImageStats.zeroTest, ImageStats.negTest,
        ImageStats.nanTest, nan_to_num]
      omega
    | num q =>
      rcases lt_trichotomy q 0 with h | h | h
      · have h1 : ¬ (0:ℚ) < q := by linarith
        norm_num [ImageStats.posTest, ImageStats.zeroTest, ImageStats.negTest,
          ImageStats.nanTest, nan_to_num, h, h1, h.ne]
        omega
      · subst h
        norm_num [ImageStats.posTest, ImageStats.zeroTest, ImageStats.negTest,
          ImageStats.nanTest, nan_to_num]
        omega
      · have h1 : ¬ q < (0:ℚ) := by linarith
        norm_num [ImageStats.posTest, ImageStats.zeroTest, ImageStats.negTest,
          ImageStats.nanTest, nan_to_num, h, h1, h.ne.symm]
        omega

lemma bandVals_length (a : NDArray) (b r c bi : Nat)
    (hshape : a.shape = [b, r, c]) (hlen : a.vals.length = b * r * c)
    (hbi : bi < b) : (bandVals a bi).length = r * c := by
  simp only [bandVals, hshape]
  show ((a.vals.drop (bi * (r * c))).take (r * c)).length = r * c
  rw [List.length_take, List.length_drop, hlen]
  have hmul : b * r * c - bi * (r * c) = (b - bi) * (r * c) := by
    rw [Nat.sub_mul, Nat.mul_assoc]
  rw [hmul]
  have hge : 1 * (r * c) ≤ (b - bi) * (r * c) :=
    Nat.mul_le_mul_right _ (by omega)
  rw [Nat.one_mul] at hge
  omega

/-- C1 counterexample: on the single-band 2x2 image with values
⟦⟦1, NaN⟧, ⟦0, -2⟧⟧ the statistics stage computes median 0, not the
claimed -0.5 — np.nanmedian ignores the NaN and takes the median of the
three remaining values -2, 0, 1. -/
theorem imageStats_claimed_median_false :
    (ImageStats.props c1img.data).map BandStats.median = [Val.num 0] ∧
      Val.num 0 ≠ Val.num (-1/2) := by
  constructor
  · rfl
  · simp only [ne_eq, Val.num.injEq]
    norm_num

/-- C1 (amended): on the single-band 2x2 image with values
⟦⟦1, NaN⟧, ⟦0, -2⟧⟧ the statistics stage computes, for its single band,
min = -2, max = 1, mean = -1/3, median = 0, pos = 1, zero = 1, neg = 1,
nan = 1: min/max/mean/median ignore the NaN, the positive count replaces
NaN by -1, and the negative count replaces NaN by +1. -/
theorem imageStats_concrete_values :
    ImageStats.props c1img.data =
      [{ min := Val.num (-2), max := Val.num 1, mean := Val.num (-1/3),
         median := Val.num 0, pos := 1, zero := 1, neg := 1, nan := 1 }] := by
  have hmean : ImageStats.nanmean (bandVals c1img.data 0) = Val.num (-1/3) := by
    simp only [ImageStats.nanmean, bandVals, c1img, nonNan, List.filterMap_cons,
      List.filterMap_nil, List.drop, List.take]
    norm_num
  have h : ImageStats.props c1img.data =
      [ImageStats.bandStats (bandVals c1img.data 0)] := rfl
  rw [h]
  unfold ImageStats.bandStats
  rw [hmean]
  rfl

/-- C10: the four per-band counts of the statistics stage partition the
band's elements: for any array of shape (b, r, c) whose flattened length
matches, and any band index, pos + zero + neg + nan equals the r*c
elements of that band; moreover a NaN element passes only the nan test,
never the pos, zero or neg test. -/
theorem imageStats_counts_partition (a : NDArray) (b r c bi : Nat)
    (hshape : a.shape = [b, r, c]) (hlen : a.vals.length = b * r * c)
    (hbi : bi < b) :
    ((ImageStats.bandStats (bandVals a bi)).pos
        + (ImageStats.bandStats (bandVals a bi)).zero
        + (ImageStats.bandStats (bandVals a bi)).neg
        + (ImageStats.bandStats (bandVals a bi)).nan = r * c) ∧
      ImageStats.posTest Val.nan = false ∧ ImageStats.zeroTest Val.nan = false ∧
      ImageStats.negTest Val.nan = false ∧ ImageStats.nanTest Val.nan = true := by
  refine ⟨?_, rfl, rfl, rfl, rfl⟩
  have := counts_partition (bandVals a bi)
  have hl := bandVals_length a b r c bi hshape hlen hbi
  simpa [ImageStats.bandStats, hl] using this

/-- Witness for C10: the partition theorem instantiated on the concrete
2x2 single-band image, whose band has 2*2 elements. -/
theorem imageStats_counts_partition_witness :
    ((ImageStats.bandStats (bandVals c1img.data 0)).pos
        + (ImageStats.bandStats (bandVals c1img.data 0)).zero
        + (ImageStats.bandStats (bandVals c1img.data 0)).neg
        + (ImageStats.bandStats (bandVals c1img.data 0)).nan = 2 * 2) ∧
      ImageStats.posTest Val.nan = false ∧ ImageStats.zeroTest Val.nan = false ∧
      ImageStats.negTest Val.nan = false ∧ ImageStats.nanTest Val.nan = true :=
  imageStats_counts_partition c1img.data 1 2 2 0 rfl rfl (by decide)

/-- Bounds.transform: reads the 6-tuple geotransform, takes
numrows = data.shape⟦1⟧ and numcols = data.shape⟦2⟧, and returns
⟦gt0, gt3 + gt5*numrows, gt0 + gt1*numcols, gt3⟧; the rotation/shear
entries gt2 and gt4 are never consulted. -/
def Bounds.transform (pin : Image) : List ℚ :=
  let gt := pin.metadata.geotransform
  let numrows : ℚ := (pin.data.shape.getD 1 0 : ℚ)
  let numcols : ℚ := (pin.data.shape.getD 2 0 : ℚ)
  [gt.gt0, gt.gt3 + gt.gt5 * numrows, gt.gt0 + gt.gt1 * numcols, gt.gt3]

/-- The concrete image of the bounds test case: geotransform
(100, 2, 0, 200, 0, -2) and a single-band 10-row by 5-column data array. -/
def c3img : Image :=
  { data := { shape := [1, 10, 5]
              dtype := "float64"
              vals := List.replicate 50 (Val.num 0) }
    name := "image"
    metadata := { Metadata.empty with geotransform := ⟨100, 2, 0, 200, 0, -2⟩ } }

/-- C3: for every image whose data has shape (b, numrows, numcols) and
geotransform (gt0, gt1, gt2, gt3, gt4, gt5), the bounds stage returns
⟦gt0, gt3 + gt5*numrows, gt0 + gt1*numcols, gt3⟧, ignoring the
rotation/shear terms gt2 and gt4. -/
theorem bounds_formula (pin : Image) (b r c : Nat)
    (hshape : pin.data.shape = [b, r, c]) :
    Bounds.transform pin =
      [pin.metadata.geotransform.gt0,
       pin.metadata.geotransform.gt3 + pin.metadata.geotransform.gt5 * (r : ℚ),
       pin.metadata.geotransform.gt0 + pin.metadata.geotransform.gt1 * (c : ℚ),
       pin.metadata.geotransform.gt3] := by
  simp [Bounds.transform, hshape]

/-- Witness for C3: for geotransform (100, 2, 0, 200, 0, -2) and a
10-row by 5-column image, the bounds are ⟦100, 180, 110, 200⟧. -/
theorem bounds_formula_witness :
    Bounds.transform c3img = [(100 : ℚ), 180, 110, 200] := by
  have h := bounds_formula c3img 1 10 5 rfl
  rw [h]
  norm_num [c3img, Metadata.empty]

/-- Modelled from the spec: the PipeSegment base class and the pipeline
composition operator live in pipesegment.py, which is not among the
provided sources. Per the spec, composing stage S1 with stage S2 yields a
pipeline whose execution runs S1 and feeds its output to S2
(out = S1.execute(); return S2.transform(out)). A transform stage is
represented by its transform function. -/
def PipeSegment.compose {α β γ : Type} (s1 : α → β) (s2 : β → γ) : α → γ :=
  fun x => s2 (s1 x)

/-- Modelled from the spec: Identity is declared in image.py as a bare
alias of the PipeSegment base class, whose transform (defined in the
missing pipesegment.py) returns its input unchanged per the spec. -/
def Identity.transform {α : Type} (pin : α) : α :=
  pin

/-- C7: the Identity stage's transform returns its input unchanged, and
composing any stage S with Identity on either side yields a pipeline whose
output on any input equals S's own output. -/
theorem identity_neutral {α β : Type} (S : α → β) (x : α) :
    Identity.transform x = x ∧
      PipeSegment.compose S Identity.transform x = S x ∧
      PipeSegment.compose Identity.transform S x = S x :=
  ⟨rfl, rfl, rfl⟩

/-- The truncation applied by Image.__str__ to the metadata string: a
string longer than 400 characters is replaced by its first 360 characters
followed by an ellipsis marker. -/
def Image.metastringOf (metastring : String) : String :=
  if metastring.length > 400 then metastring.take 360 ++ "..." else metastring

/-- The fixed part of the summary produced by Image.__str__ for rank-3
data, following the format string: name, band count, rows x cols, dtype,
then the metadata portion. -/
def Image.summaryHeader (img : Image) : String :=
  img.name ++ ": " ++ toString (img.data.shape.getD 0 0) ++ " bands, " ++
    toString (img.data.shape.getD 1 0) ++ "x" ++
    toString (img.data.shape.getD 2 0) ++ ", " ++ img.data.dtype ++ ", "

/-- Image.__str__: raises when the data has fewer than 3 dimensions;
otherwise renders the summary line, with the metadata's string form
(supplied by the metaRepr collaborator, standing for Python's str on a
dict) truncated by metastringOf. -/
def Image.summary (metaRepr : Metadata → String) (img : Image) :
    Except String String :=
  if img.data.shape.length < 3 then
    .error "! Image data has too few dimensions."
  else
    .ok (Image.summaryHeader img ++ Image.metastringOf (metaRepr img.metadata))

/-- C8: the summary of an Image whose data has fewer than 3 dimensions is
the DimensionError-equivalent failure; for rank-3 data the metadata
portion of the summary is the metadata's string form when that form has at
most 400 characters, and its first 360 characters followed by an ellipsis
marker when longer. -/
theorem image_summary_spec (metaRepr : Metadata → String) (img : Image) :
    (img.data.shape.length < 3 →
      Image.summary metaRepr img = .error "! Image data has too few dimensions.") ∧
      (img.data.shape.length = 3 →
        ((metaRepr img.metadata).length ≤ 400 →
          Image.summary metaRepr img =
            .ok (Image.summaryHeader img ++ metaRepr img.metadata)) ∧
        (400 < (metaRepr img.metadata).length →
          Image.summary metaRepr img =
            .ok (Image.summaryHeader img ++
              ((metaRepr img.metadata).take 360 ++ "...")))) := by
  refine ⟨fun h3 => ?_, fun h3 => ⟨fun hle => ?_, fun hgt => ?_⟩⟩
  · simp [Image.summary, h3]
  · simp [Image.summary, h3, Image.metastringOf, Nat.not_lt.mpr hle]
  · simp [Image.summary, h3, Image.metastringOf, hgt]

/-- Witness for C8: on the concrete rank-3 image with a short metadata
string, the summary succeeds and carries the untruncated metadata string. -/
theorem image_summary_spec_witness :
    Image.summary (fun _ => "m") c1img =
      .ok (Image.summaryHeader c1img ++ "m") :=
  ((image_summary_spec (fun _ => "m") c1img).2 rfl).1 (by decide)

/-- The configuration of the SaveImage stage: destination path, driver
name, and the three independent booleans. -/
structure SaveConfig where
  pathstring : String
  driver : String
  return_image : Bool
  save_projection : Bool
  save_metadata : Bool
deriving DecidableEq

/-- The GDAL type code gdal.GDT_Float32, substituted when the dtype has no
native mapping. -/
def GDT_Float32 : Nat := 6

/-- A dataset created and written by SaveImage through the GDAL
collaborator: creation dimensions, type code, the per-band arrays written
by WriteArray, and the optional georeferencing and metadata fields (none
when the corresponding Set call was never made). -/
structure GdalOutput where
  path : String
  xsize : Nat
  ysize : Nat
  nbands : Nat
  typeCode : Nat
  bands : List (List Val)
  geotransform : Option GeoTransform
  projection : Option String
  gcps : Option (List String × String)
  meta : Option (List (String × String))
deriving DecidableEq

/-- The dataset built by SaveImage.transform: Create with
(cols, rows, bands) taken from data.shape⟦2⟧, ⟦1⟧, ⟦0⟧ and the mapped
type code (falling back to GDT_Float32 when tmap, the
NumericTypeCodeToGDALTypeCode collaborator, has no match); each band
written in order; then georeferencing per the affine-vs-GCP authority
rule when save_projection is set; then the meta tags when save_metadata
is set. -/
def SaveImage.dataset (tmap : String → Option Nat) (cfg : SaveConfig)
    (pin : Image) : GdalOutput :=
  let datatype := (tmap pin.data.dtype).getD GDT_Float32
  let ds : GdalOutput :=
    { path := cfg.pathstring
      xsize := pin.data.shape.getD 2 0
      ysize := pin.data.shape.getD 1 0
      nbands := pin.data.shape.getD 0 0
      typeCode := datatype
      bands := (List.range (pin.data.shape.getD 0 0)).map
        (fun band => bandVals pin.data band)
      geotransform := none
      projection := none
      gcps := none
      meta := none }
  let ds :=
    if cfg.save_projection then
      if pin.metadata.gcp_projection.length ≤ pin.metadata.projection_ref.length then
        { ds with geotransform := some pin.metadata.geotransform
                  projection := some pin.metadata.projection_ref }
      else
        { ds with gcps := some (pin.metadata.gcps, pin.metadata.gcp_projection) }
    else ds
  if cfg.save_metadata then { ds with meta := some pin.metadata.meta } else ds

/-- The value returned by SaveImage.transform: the created dataset, the
input image, or nothing. -/
inductive SaveReturn
  | dset (d : GdalOutput)
  | img (i : Image)
  | noneVal
deriving DecidableEq

/-- Python str.lower() on the driver name: map every character to lower
case (the driver names involved are plain ASCII). -/
def strLower (s : String) : String :=
  String.mk (s.data.map Char.toLower)

/-- SaveImage.transform: build and write the dataset, then return the
dataset handle when the driver (lower-cased) is the in-memory driver,
else the input image when return_image is set, else nothing. -/
def SaveImage.transform (tmap : String → Option Nat) (cfg : SaveConfig)
    (pin : Image) : SaveReturn :=
  let dataset := SaveImage.dataset tmap cfg pin
  if strLower cfg.driver = "mem" then .dset dataset
  else if cfg.return_image then .img pin
  else .noneVal

/-- C2: when saving with georeferencing requested, a projection_ref at
least as long as gcp_projection writes the affine geotransform and
projection and no GCPs, and a strictly shorter projection_ref writes the
GCPs with their projection and neither the affine transform nor the
projection string. -/
theorem saveImage_georeferencing_authority (tmap : String → Option Nat)
    (cfg : SaveConfig) (pin : Image) (hs : cfg.save_projection = true) :
    (pin.metadata.gcp_projection.length ≤ pin.metadata.projection_ref.length →
      (SaveImage.dataset tmap cfg pin).geotransform = some pin.metadata.geotransform ∧
      (SaveImage.dataset tmap cfg pin).projection = some pin.metadata.projection_ref ∧
      (SaveImage.dataset tmap cfg pin).gcps = none) ∧
    (pin.metadata.projection_ref.length < pin.metadata.gcp_projection.length →
      (SaveImage.dataset tmap cfg pin).gcps =
        some (pin.metadata.gcps, pin.metadata.gcp_projection) ∧
      (SaveImage.dataset tmap cfg pin).geotransform = none ∧
      (SaveImage.dataset tmap cfg pin).projection = none) := by
  constructor
  · intro hle
    simp only [SaveImage.dataset, hs, if_true, if_pos hle]
    cases cfg.save_metadata <;> simp
  · intro hlt
    simp only [SaveImage.dataset, hs, if_true, if_neg (Nat.not_le.mpr hlt)]
    cases cfg.save_metadata <;> simp

/-- Witness for C2: an image whose projection_ref "ab" is strictly longer
than its gcp_projection "a" is saved with the affine scheme. -/
theorem saveImage_georeferencing_authority_witness :
    (SaveImage.dataset (fun _ => none)
        ⟨"out.tif", "GTiff", true, true, true⟩
        { c1img with metadata :=
            { Metadata.empty with projection_ref := "ab", gcp_projection := "a" } }).geotransform =
      some ⟨0, 0, 0, 0, 0, 0⟩ ∧
    (SaveImage.dataset (fun _ => none)
        ⟨"out.tif", "GTiff", true, true, true⟩
        { c1img with metadata :=
            { Metadata.empty with projection_ref := "ab", gcp_projection := "a" } }).gcps = none := by
  have h := (saveImage_georeferencing_authority (fun _ => none)
    ⟨"out.tif", "GTiff", true, true, true⟩
    { c1img with metadata :=
        { Metadata.empty with projection_ref := "ab", gcp_projection := "a" } }
    rfl).1 (by decide)
  exact ⟨h.1, h.2.2⟩

/-- C5: SaveImage.transform returns the created dataset when the driver is
the in-memory driver (case-insensitively); otherwise it returns the input
image exactly when return_image is set, and nothing when it is not. -/
theorem saveImage_return_value (tmap : String → Option Nat)
    (cfg : SaveConfig) (pin : Image) :
    (strLower cfg.driver = "mem" →
      SaveImage.transform tmap cfg pin = .dset (SaveImage.dataset tmap cfg pin)) ∧
    (strLower cfg.driver ≠ "mem" → cfg.return_image = true →
      SaveImage.transform tmap cfg pin = .img pin) ∧
    (strLower cfg.driver ≠ "mem" → cfg.return_image = false →
      SaveImage.transform tmap cfg pin = .noneVal) := by
  refine ⟨fun hm => ?_, fun hm hr => ?_, fun hm hr => ?_⟩
  · simp [SaveImage.transform, hm]
  · simp [SaveImage.transform, hm, hr]
  · simp [SaveImage.transform, hm, hr]

/-- Witness for C5: with the in-memory driver spelled "MEM" the dataset
handle is returned even though return_image is false. -/
theorem saveImage_return_value_witness :
    SaveImage.transform (fun _ => none)
        ⟨"", "MEM", false, false, false⟩ c1img =
      .dset (SaveImage.dataset (fun _ => none)
        ⟨"", "MEM", false, false, false⟩ c1img) :=
  (saveImage_return_value (fun _ => none)
    ⟨"", "MEM", false, false, false⟩ c1img).1 (by decide)

/-- A dataset handle as returned by the GDAL open collaborator, with the
fields LoadImageFromDisk reads from it. Band tags are indexed 1-based, as
GetRasterBand is. -/
structure GdalDataset where
  readAsArray : NDArray
  geotransform : GeoTransform
  projection_ref : String
  gcps : List String
  gcp_projection : String
  meta : List (String × String)
  rasterCount : Nat
  bandTags : Nat → List (String × String)

/-- os.path.split(p)⟦1⟧: the part of the path after the last slash. -/
def pathBase (s : String) : String :=
  (s.splitOn "/").getLastD s

/-- os.path.splitext(b)⟦0⟧: the name with the extension after the last
dot removed (a name without a dot is unchanged). -/
def dropExt (s : String) : String :=
  let parts := s.splitOn "."
  if parts.length ≤ 1 then s else String.intercalate "." parts.dropLast

/-- The default image name derived from the path: the filename stem. -/
def pathStem (s : String) : String :=
  dropExt (pathBase s)

/-- LoadImageFromDisk.load_from_disk: open the path through the gopen
collaborator (gdal.Open), fail when no dataset is found, read the full
array, insert a leading band axis of size 1 when the array has exactly 2
dimensions, gather the metadata mapping, and default the name to the
path's filename stem. -/
def LoadImageFromDisk.load_from_disk (gopen : String → Option GdalDataset)
    (pathstring : String) (name : Option String) : Except String Image :=
  match gopen pathstring with
  | none => .error "! Image file not found."
  | some dataset =>
    let data := dataset.readAsArray
    let data :=
      if data.shape.length = 2 then { data with shape := 1 :: data.shape }
      else data
    let metadata : Metadata :=
      { geotransform := dataset.geotransform
        projection_ref := dataset.projection_ref
        gcps := dataset.gcps
        gcp_projection := dataset.gcp_projection
        meta := dataset.meta
        band_meta := (List.range dataset.rasterCount).map
          (fun band => dataset.bandTags (band + 1)) }
    let outName :=
      match name with
      | some n => n
      | none => pathStem pathstring
    .ok { data := data, name := outName, metadata := metadata }

/-- C4: whenever the raster-IO collaborator returns a rank-2 array for an
opened path, load_from_disk inserts a leading band axis of size 1, so the
loaded Image's data has rank 3 and a leading band axis of size 1. -/
theorem loadImageFromDisk_dimension_normalization
    (gopen : String → Option GdalDataset) (pathstring : String)
    (name : Option String) (ds : GdalDataset)
    (hopen : gopen pathstring = some ds)
    (h2 : ds.readAsArray.shape.length = 2) :
    ∃ img, LoadImageFromDisk.load_from_disk gopen pathstring name = .ok img ∧
      img.data.shape = 1 :: ds.readAsArray.shape ∧
      img.data.shape.length = 3 ∧ img.data.shape.getD 0 0 = 1 := by
  unfold LoadImageFromDisk.load_from_disk
  rw [hopen]
  simp only [h2, if_true]
  exact ⟨_, rfl, rfl, by simp [h2], rfl⟩

/-- A concrete dataset whose ReadAsArray result is a rank-2 2x2 array, for
the dimension-normalization witness. -/
def c4ds : GdalDataset :=
  { readAsArray := { shape := [2, 2]
                     dtype := "float64"
                     vals := [.num 1, .num 2, .num 3, .num 4] }
    geotransform := ⟨0, 0, 0, 0, 0, 0⟩
    projection_ref := ""
    gcps := []
    gcp_projection := ""
    meta := []
    rasterCount := 1
    bandTags := fun _ => [] }

/-- Witness for C4: loading a path that opens onto the concrete rank-2
dataset yields an image whose data shape is ⟦1, 2, 2⟧. -/
theorem loadImageFromDisk_dimension_normalization_witness :
    ∃ img, LoadImageFromDisk.load_from_disk (fun _ => some c4ds) "a/b.tif" none
        = .ok img ∧
      img.data.shape = 1 :: c4ds.readAsArray.shape ∧
      img.data.shape.length = 3 ∧ img.data.shape.getD 0 0 = 1 :=
  loadImageFromDisk_dimension_normalization (fun _ => some c4ds) "a/b.tif"
    none c4ds rfl rfl

/-- The runtime-typed input of the load stages. Python's dispatch compares
exact runtime types (type(x) is Image, type(x) in (str, np.str_)), so the
embedding distinguishes an exact Image from an instance of a proper
subclass of Image, and the exact types str and numpy str_ from a proper
subclass of str; otherVal stands for a value of any other type. -/
inductive LoadInput
  | imageVal (i : Image)
  | imageSubVal (i : Image)
  | strVal (s : String)
  | npStrVal (s : String)
  | strSubVal (s : String)
  | otherVal
deriving DecidableEq

/-- LoadImageFromMemory.load_from_memory: reject any input whose exact
runtime type is not Image (type(imageobj) is not Image); otherwise
overwrite the name in place when an override is given and return the same
instance. -/
def LoadImageFromMemory.load_from_memory (imageobj : LoadInput)
    (name : Option String) : Except String Image :=
  match imageobj with
  | .imageVal i =>
    .ok { i with name :=
      match name with
      | some n => n
      | none => i.name }
  | _ => .error "! Invalid input type in LoadImageFromMemory."

/-- LoadImage.process: dispatch on the exact runtime type of the
configured input — exactly Image goes to load_from_memory, exactly str or
numpy str_ goes to load_from_disk, and everything else raises. -/
def LoadImage.process (gopen : String → Option GdalDataset)
    (imageinput : LoadInput) (name : Option String) : Except String Image :=
  match imageinput with
  | .imageVal _ => LoadImageFromMemory.load_from_memory imageinput name
  | .strVal s => LoadImageFromDisk.load_from_disk gopen s name
  | .npStrVal s => LoadImageFromDisk.load_from_disk gopen s name
  | _ => .error "! Invalid input type in LoadImage."

/-- C6: LoadImage.process dispatches purely on the runtime type of its
configured input: an exact-Image input is passed through load_from_memory
(the same instance with only its name possibly overwritten), an input of
the exact string types goes to load_from_disk on that path, and an input
of any other runtime type fails with the TypeError-equivalent message. -/
theorem loadImage_dispatch (gopen : String → Option GdalDataset)
    (name : Option String) :
    (∀ i : Image, LoadImage.process gopen (.imageVal i) name =
      .ok { i with name :=
        match name with
        | some n => n
        | none => i.name }) ∧
    (∀ s, LoadImage.process gopen (.strVal s) name =
      LoadImageFromDisk.load_from_disk gopen s name) ∧
    (∀ s, LoadImage.process gopen (.npStrVal s) name =
      LoadImageFromDisk.load_from_disk gopen s name) ∧
    (∀ i, LoadImage.process gopen (.imageSubVal i) name =
      .error "! Invalid input type in LoadImage.") ∧
    (∀ s, LoadImage.process gopen (.strSubVal s) name =
      .error "! Invalid input type in LoadImage.") ∧
    LoadImage.process gopen .otherVal name =
      .error "! Invalid input type in LoadImage." :=
  ⟨fun _ => rfl, fun _ => rfl, fun _ => rfl, fun _ => rfl, fun _ => rfl, rfl⟩

/-- C9: because the load stages compare exact runtime types, an instance
of a proper subclass of Image is rejected by LoadImage.process and by
LoadImageFromMemory.load_from_memory, and a string of a proper subclass
type is likewise rejected rather than dispatched to load-from-disk. -/
theorem loadImage_exact_type_check (gopen : String → Option GdalDataset)
    (name : Option String) :
    (∀ i : Image, LoadImage.process gopen (.imageSubVal i) name =
      .error "! Invalid input type in LoadImage.") ∧
    (∀ i : Image, LoadImageFromMemory.load_from_memory (.imageSubVal i) name =
      .error "! Invalid input type in LoadImageFromMemory.") ∧
    (∀ s, LoadImage.process gopen (.strSubVal s) name =
      .error "! Invalid input type in LoadImage.") ∧
    (∀ s, LoadImage.process gopen (.strVal s) name =
      LoadImageFromDisk.load_from_disk gopen s name) ∧
    (∀ s, LoadImage.process gopen (.npStrVal s) name =
      LoadImageFromDisk.load_from_disk gopen s name) :=
  ⟨fun _ => rfl, fun _ => rfl, fun _ => rfl, fun _ => rfl, fun _ => rfl⟩
